import Mathlib

/-!
Shallow embedding of the computational core of `gold_premium_bot.py` and
`daily_signal_generator.py`: premium calculation, history load/upsert/save,
and the trend/level analysis performed in each script's `main`.

Prices and premiums are modelled as rationals (the Python code uses floats;
all claims under study concern the algebraic formulas and list manipulations,
which the rational model captures exactly).  Exceptions raised by the quote
acquisition layer are modelled with `Except`.  The persisted history file
is modelled twice: coarsely by `StoreContent` (missing / JSON-decode-error
/ decoded record list), which is all the two `main` embeddings need, and in
full by `FileState`, which also carries the malformed-content states the
source's `load_history` does not handle (bytes that do not decode as text,
and well-formed JSON that is not a record list). -/

namespace GoldPremium

/-- One record of the persisted history file: `{"date": ..., "premium": ...}`. -/
structure PremiumRecord where
  date : String
  premium : ℚ
  deriving DecidableEq, Repr

/-- Python `round(x, 2)`: rounding to two decimal places
(tie behaviour is irrelevant to every property studied here). -/
def round2 (x : ℚ) : ℚ := ((round (x * 100) : ℤ) : ℚ) / 100

/-- The fixed troy-ounce → gram conversion constant `31.1035`
(`gold_premium_bot.py`, line 131). -/
def unit_conversion_factor : ℚ := 311035 / 10000

/-- Result record of `calc_premium` in `gold_premium_bot.py` (lines 156-162). -/
structure Info where
  korean : ℚ
  international_krw : ℚ
  usd_krw : ℚ
  gold_usd : ℚ
  premium : ℚ
  deriving DecidableEq, Repr

/-- Computational part of `get_gold_and_fx` (`gold_premium_bot.py`, lines 127-135):
given the three numbers fetched from the network, it derives
`intl_krw_per_g = gold_usd * usd_krw / 31.1035` and passes the four values on. -/
def get_gold_and_fx (krx_gold_per_g usd_krw gold_usd : ℚ) : ℚ × ℚ × ℚ × ℚ :=
  let intl_krw_per_g := gold_usd * usd_krw / unit_conversion_factor
  (krx_gold_per_g, intl_krw_per_g, usd_krw, gold_usd)

/-- Computational part of `calc_premium` (`gold_premium_bot.py`, lines 152-162):
`premium = (korean_gold / intl_krw - 1) * 100`. -/
def calc_premium (krx_gold_per_g usd_krw gold_usd : ℚ) : Info :=
  let q := get_gold_and_fx krx_gold_per_g usd_krw gold_usd
  let korean_gold := q.1
  let intl_krw := q.2.1
  { korean := korean_gold
    international_krw := intl_krw
    usd_krw := q.2.2.1
    gold_usd := q.2.2.2
    premium := (korean_gold / intl_krw - 1) * 100 }

/-- The spec's `compute_premium` formulas, written from the spec's words for
comparison with the code: `fair_value_domestic = reference_price_foreign ×
fx_rate / unit_conversion_factor`, `premium_pct = (domestic_price /
fair_value_domestic − 1) × 100`.  Returns `(premium_pct, fair_value_domestic)`. -/
def compute_premium_spec (domestic ref_foreign fx ucf : ℚ) : ℚ × ℚ :=
  let fair := ref_foreign * fx / ucf
  ((domestic / fair - 1) * 100, fair)

/-- Coarse state of the persisted history file `gold_premium_history.json`,
used by the embeddings of the two `main` functions (whose properties only
depend on the decoded-record-list states): the file does not exist, or its
content raises `json.JSONDecodeError` (exactly the path the source
catches), or it decodes to a list of records.  The file's complete state
space, including the malformed-content paths `load_history` does NOT
handle, is modelled by `FileState` below. -/
inductive StoreContent where
  | missing
  | corrupt
  | valid (records : List PremiumRecord)
  deriving DecidableEq, Repr

/-- Embeds `load_history` (`gold_premium_bot.py` lines 138-145, identical in
`daily_signal_generator.py` lines 128-135) restricted to the coarse states:
missing file → `[]`, `json.JSONDecodeError` → `[]`, otherwise the decoded
list.  `FullStore.load_history` below embeds the same source lines over the
complete file-state space, including the error paths the source does not
catch. -/
def load_history : StoreContent → List PremiumRecord
  | .missing => []
  | .corrupt => []
  | .valid l => l

/-- Python's `l[-n:]`: the last `min n l.length` elements, in order. -/
def takeLast (n : ℕ) (l : List α) : List α := l.drop (l.length - n)

/-- Embeds `save_history` (`gold_premium_bot.py` lines 147-150, identical in
`daily_signal_generator.py` lines 137-140): `data = data[-100:]` then the
truncated list is serialized and written. -/
def save_history (data : List PremiumRecord) : StoreContent :=
  .valid (takeLast 100 data)

/-- The same-day upsert performed in both scripts' `main`
(`gold_premium_bot.py` lines 217-220): if the history is nonempty and its
last record carries the same date as `r`, replace that last record with `r`
in place; otherwise append `r`. -/
def upsert (history : List PremiumRecord) (r : PremiumRecord) : List PremiumRecord :=
  match history.getLast? with
  | some last => if last.date = r.date then history.dropLast ++ [r] else history ++ [r]
  | none => history ++ [r]

/-- Valuation level against the trailing 7-sample average:
`"고평가"` (overvalued) / `"저평가"` (undervalued). -/
inductive Level where
  | overvalued
  | undervalued
  deriving DecidableEq, Repr

/-- Trend tag attached to the message.  The code produces `"📈 상승세"`
(`up`) and `"📉 하락세"` (`down`); `daily_signal_generator.py` additionally
produces `"--- (과거 기록)"` (`pastRecord`) in its NAV-missing fallback
branch.  `flat` is the spec's FLAT value, included so that statements about
it can be expressed; the code never produces it. -/
inductive Trend where
  | up
  | down
  | flat
  | pastRecord
  deriving DecidableEq, Repr

/-- The values derived in `gold_premium_bot.py`'s `main` (lines 215-231). -/
structure AnalysisOut where
  premium : ℚ
  historyAfter : List PremiumRecord
  prev : ℚ
  change : ℚ
  avg7 : ℚ
  level : Level
  trend : Trend
  deriving DecidableEq, Repr

/-- Embeds `main` of `gold_premium_bot.py`, lines 215-231, after the quote has been
fetched: upsert today's (2-decimal-rounded) premium into the loaded history,
compute `prev` as the last record whose date differs from today (falling
back to the current premium), `change`, the 7-sample average `avg7`, the
level (`premium > avg7`), and the trend (`change > 0`). -/
def runAnalysis (hist : List PremiumRecord) (today : String) (p : ℚ) : AnalysisOut :=
  let history := upsert hist ⟨today, round2 p⟩
  let prevData := history.filter (fun h => h.date ≠ today)
  let prev := match prevData.getLast? with
    | some r => r.premium
    | none => p
  let change := p - prev
  let last7 := (takeLast 7 history).map (fun x => x.premium)
  let avg7 := if last7 = [] then 0 else last7.sum / (last7.length : ℚ)
  { premium := p
    historyAfter := history
    prev := prev
    change := change
    avg7 := avg7
    level := if p > avg7 then .overvalued else .undervalued
    trend := if change > 0 then .up else .down }

/-- Embeds `main` of `gold_premium_bot.py` (lines 209-256) restricted to its effect
on the history store and its structured output.  `calcResult` stands for the
outcome of `calc_premium()` at line 213 (which raises whenever quote
acquisition or the premium computation fails); on an exception control jumps
to the handler at line 251 before any store access, so the store is returned
untouched and no structured result is produced. -/
def goldMain (calcResult : Except String Info) (today : String) (store : StoreContent) :
    StoreContent × Option AnalysisOut :=
  match calcResult with
  | .error _ => (store, none)
  | .ok info =>
    let history := load_history store
    let out := runAnalysis history today info.premium
    (save_history out.historyAfter, some out)

end GoldPremium

namespace GoldPremium

/-- Result record of `calc_premium` in `daily_signal_generator.py`
(lines 142-159): `premium` is `None` when the NAV is missing. -/
structure DailyInfo where
  korean : ℚ
  international_krw : ℚ
  usd_krw : ℚ
  gold_usd : ℚ
  premium : Option ℚ
  deriving DecidableEq, Repr

/-- Embeds `calc_premium` of `daily_signal_generator.py` (lines 142-159): the ETF
premium `(market_price / nav_price - 1) * 100` is computed only when
`nav_price` is present; otherwise `premium = None` and the NAV slot is filled
with the market price. -/
def daily_calc_premium (market_price : ℚ) (nav_price : Option ℚ)
    (usd_krw gold_usd : ℚ) : DailyInfo :=
  { korean := market_price
    international_krw := nav_price.getD market_price
    usd_krw := usd_krw
    gold_usd := gold_usd
    premium := nav_price.map (fun nav => (market_price / nav - 1) * 100) }

/-- The values rendered into the message by `daily_signal_generator.py`'s
`main`. -/
structure DailyOut where
  premium : ℚ
  change : ℚ
  avg7 : ℚ
  level : Level
  trend : Trend
  deriving DecidableEq, Repr

/-- Embeds `main` of `daily_signal_generator.py` (lines 206-293) restricted to its
effect on the history store and its structured output.  `fetch` stands for
the outcome of `calc_premium()` at line 209 (an exception jumps to the
handler at line 295 before any store access).  When the fetch succeeds but
`premium` is `None` (NAV missing): if the history is empty the run only
sends a fatal-error text and returns (no output, no write); otherwise the
last recorded premium is substituted, `change = 0`, the 7-sample average is
taken over the unmodified history, the trend is the `"--- (과거 기록)"`
marker, and the store is NOT written.  When `premium` is present the run
upserts, saves, and analyzes exactly as `gold_premium_bot.py` does. -/
def dailyMain (fetch : Except String DailyInfo) (today : String) (store : StoreContent) :
    StoreContent × Option DailyOut :=
  match fetch with
  | .error _ => (store, none)
  | .ok info =>
    let history := load_history store
    match info.premium with
    | none =>
      match history.getLast? with
      | none => (store, none)
      | some last =>
        let premium := last.premium
        let last7 := (takeLast 7 history).map (fun x => x.premium)
        let avg7 := if last7 = [] then 0 else last7.sum / (last7.length : ℚ)
        let level := if premium > avg7 then Level.overvalued else Level.undervalued
        (store, some ⟨premium, 0, avg7, level, Trend.pastRecord⟩)
    | some p =>
      let history1 := upsert history ⟨today, round2 p⟩
      let prevData := history1.filter (fun h => h.date ≠ today)
      let prev := match prevData.getLast? with
        | some r => r.premium
        | none => p
      let change := p - prev
      let last7 := (takeLast 7 history1).map (fun x => x.premium)
      let avg7 := if last7 = [] then 0 else last7.sum / (last7.length : ℚ)
      let level := if p > avg7 then Level.overvalued else Level.undervalued
      let trend := if change > 0 then Trend.up else Trend.down
      (save_history history1, some ⟨p, change, avg7, level, trend⟩)

end GoldPremium

namespace GoldPremium

/-- A well-formed JSON document as far as `load_history`'s caller is
concerned: either an array of `{date, premium}` records, or any other JSON
value (an object, a number, a string, ...), which `json.load` returns just
as happily and `load_history` passes through unchanged. -/
inductive JsonValue where
  | records (l : List PremiumRecord)
  | nonList
  deriving DecidableEq, Repr

/-- The exception that escapes `load_history`: `UnicodeDecodeError` is a
sibling of `json.JSONDecodeError` under `ValueError`, not a subclass, so
the `except json.JSONDecodeError` clause (`gold_premium_bot.py` line 143)
does not catch it and it propagates out of `load_history`. -/
inductive PyError where
  | unicodeDecodeError
  deriving DecidableEq, Repr

/-- Complete state space of the history file as `load_history` can
encounter it: the file is absent; it is present but its bytes do not
decode as text (`f.read()` inside `json.load` raises
`UnicodeDecodeError`); it is textual but not well-formed JSON (`json.load`
raises `json.JSONDecodeError`); or it holds a well-formed JSON document
`v`, which need not be a record list. -/
inductive FileState where
  | missing
  | undecodableBytes
  | invalidJson
  | decodes (v : JsonValue)
  deriving DecidableEq, Repr

end GoldPremium

namespace GoldPremium.FullStore

/-- Embeds `load_history` (`gold_premium_bot.py` lines 138-145, identical
in `daily_signal_generator.py` lines 128-135) over the complete file-state
space: a missing file and a `json.JSONDecodeError` both yield `[]`; a
`UnicodeDecodeError` propagates uncaught (modelled as `.error`); and any
well-formed JSON document is returned as decoded, whether or not it is a
record list. -/
def load_history : FileState → Except PyError JsonValue
  | .missing => .ok (.records [])
  | .undecodableBytes => .error .unicodeDecodeError
  | .invalidJson => .ok (.records [])
  | .decodes v => .ok v

end GoldPremium.FullStore

namespace GoldPremium

/-! ### Helper lemmas about `upsert`, `takeLast` and `filter` -/

/-- An `upsert` always produces some prefix followed by `[r]`. -/
lemma upsert_eq_concat (h : List PremiumRecord) (r : PremiumRecord) :
    upsert h r = h.dropLast ++ [r] ∨ upsert h r = h ++ [r] := by
  unfold upsert
  cases hl : h.getLast? with
  | none => exact Or.inr rfl
  | some last =>
    by_cases hd : last.date = r.date
    · exact Or.inl (by simp [hd])
    · exact Or.inr (by simp [hd])

/-- The last record after an `upsert` is the upserted record. -/
lemma upsert_getLast? (h : List PremiumRecord) (r : PremiumRecord) :
    (upsert h r).getLast? = some r := by
  rcases upsert_eq_concat h r with heq | heq <;> rw [heq] <;> exact List.getLast?_concat _

/-- When no record of `h` carries `r`'s date, `upsert` appends. -/
lemma upsert_of_date_not_mem (h : List PremiumRecord) (r : PremiumRecord)
    (hfresh : ∀ x ∈ h, x.date ≠ r.date) : upsert h r = h ++ [r] := by
  unfold upsert
  cases hl : h.getLast? with
  | none => rfl
  | some last =>
    have hmem : last ∈ h := List.mem_of_mem_getLast? hl
    simp [hfresh last hmem]

/-- Records whose date differs from the upserted record's date are untouched
by `upsert`. -/
lemma filter_ne_upsert (h : List PremiumRecord) (today : String) (q : ℚ) :
    (upsert h ⟨today, q⟩).filter (fun x => x.date ≠ today)
      = h.filter (fun x => x.date ≠ today) := by
  have hr : (List.filter (fun x => decide (x.date ≠ today)) [(⟨today, q⟩ : PremiumRecord)]) = [] := by
    simp
  unfold upsert
  cases hl : h.getLast? with
  | none =>
    have : h = [] := List.getLast?_eq_none_iff.mp hl
    simp [this]
  | some last =>
    by_cases hd : last.date = today
    · have hne : h ≠ [] := by
        intro hnil
        rw [hnil] at hl
        exact Option.noConfusion hl
      have hsplit : h.dropLast ++ [h.getLast hne] = h := List.dropLast_append_getLast hne
      have hlast : last = h.getLast hne := by
        have := List.getLast?_eq_getLast h hne
        rw [hl] at this
        exact Option.some.inj this
      simp only [hd, if_pos rfl, List.filter_append, hr, List.append_nil]
      conv_rhs => rw [← hsplit]
      simp [List.filter_append, ← hlast, hd]
    · simp [hd, List.filter_append, hr]

end GoldPremium

namespace GoldPremium

/-! ### Claim theorems -/

/-- C1: for every quote with positive domestic price, foreign reference
price and FX rate, `calc_premium` (with `get_gold_and_fx`) computes exactly
the spec's `fair_value_domestic = reference_price_foreign * fx_rate /
unit_conversion_factor` (with the constant equal to `31.1035`) and
`premium_pct = (domestic_price / fair_value_domestic - 1) * 100`;
determinism is witnessed by the last conjunct (the computation is a pure
function of its arguments). -/
theorem calc_premium_matches_spec (domestic ref_foreign fx : ℚ)
    (hd : 0 < domestic) (hr : 0 < ref_foreign) (hf : 0 < fx) :
    (calc_premium domestic fx ref_foreign).international_krw
      = (compute_premium_spec domestic ref_foreign fx unit_conversion_factor).2
    ∧ (calc_premium domestic fx ref_foreign).premium
      = (compute_premium_spec domestic ref_foreign fx unit_conversion_factor).1
    ∧ unit_conversion_factor = (31.1035 : ℚ)
    ∧ calc_premium domestic fx ref_foreign = calc_premium domestic fx ref_foreign := by
  refine ⟨rfl, rfl, ?_, rfl⟩
  norm_num [unit_conversion_factor]

/-- Witness for C1 at the spec's own example quote
`{domestic=76000, reference_foreign=2400, fx_rate=1350}`. -/
theorem calc_premium_matches_spec_witness :
    (0:ℚ) < 76000
    ∧ (calc_premium 76000 1350 2400).premium
        = (compute_premium_spec 76000 2400 1350 unit_conversion_factor).1 := by
  refine ⟨by norm_num, ?_⟩
  exact (calc_premium_matches_spec 76000 2400 1350 (by norm_num) (by norm_num)
    (by norm_num)).2.1

/-- C3: `save_history` stores exactly the truncation of the input to its
most recent 100 entries; the stored length is `min (length data) 100`, hence
never exceeds 100, and the stored entries form a suffix of the input (order
preserved, oldest entries evicted first). -/
theorem save_history_truncates (data : List PremiumRecord) :
    save_history data = StoreContent.valid (takeLast 100 data)
    ∧ (takeLast 100 data).length = min data.length 100
    ∧ (takeLast 100 data).length ≤ 100
    ∧ List.IsSuffix (takeLast 100 data) data := by
  refine ⟨rfl, ?_, ?_, List.drop_suffix _ _⟩
  · simp only [takeLast, List.length_drop]
    omega
  · simp only [takeLast, List.length_drop]
    omega

/-- C10: when quote acquisition or premium computation raises (modelled as
an `Except.error` outcome of `calc_premium()`), both scripts' `main` jump to
the exception handler before any store access: the persisted history after
the failed run equals the history before it, and no structured output is
produced. -/
theorem store_unchanged_on_failure (eG eD today : String) (store : StoreContent)
    (calcG : Except String Info) (fetchD : Except String DailyInfo)
    (hg : calcG = Except.error eG) (hd : fetchD = Except.error eD) :
    goldMain calcG today store = (store, none)
    ∧ dailyMain fetchD today store = (store, none) := by
  subst hg
  subst hd
  exact ⟨rfl, rfl⟩

/-- Witness for C10 at a concrete failing fetch and a concrete store. -/
theorem store_unchanged_on_failure_witness :
    goldMain (Except.error "SourceUnavailableError") "2024-01-03"
        (StoreContent.valid [⟨"2024-01-02", 2⟩])
      = (StoreContent.valid [⟨"2024-01-02", 2⟩], none)
    ∧ dailyMain (Except.error "SourceUnavailableError") "2024-01-03"
        (StoreContent.valid [⟨"2024-01-02", 2⟩])
      = (StoreContent.valid [⟨"2024-01-02", 2⟩], none) :=
  store_unchanged_on_failure "SourceUnavailableError" "SourceUnavailableError"
    "2024-01-03" (StoreContent.valid [⟨"2024-01-02", 2⟩])
    (Except.error "SourceUnavailableError") (Except.error "SourceUnavailableError")
    rfl rfl

end GoldPremium

namespace GoldPremium

/-- Upserting into a history that ends in a record of the same date
replaces that record. -/
lemma upsert_concat_of_date_eq (xs : List PremiumRecord) (r' r : PremiumRecord)
    (hd : r'.date = r.date) : upsert (xs ++ [r']) r = xs ++ [r] := by
  simp [upsert, List.getLast?_concat, hd, List.dropLast_concat]

/-- C2: the same-day upsert replaces the last record in place when its date
matches and appends otherwise (first two conjuncts); it is idempotent,
`upsert (upsert h r) r = upsert h r` (third conjunct); and re-running the
same day with a different premium leaves exactly one record for that date,
holding the latest value, with the length grown by exactly one over the
prior history (final conjunct). -/
theorem upsert_idempotent_and_unique (h : List PremiumRecord) (r r2 : PremiumRecord) :
    (∀ last, h.getLast? = some last → last.date = r.date →
        upsert h r = h.dropLast ++ [r])
    ∧ (∀ last, h.getLast? = some last → last.date ≠ r.date →
        upsert h r = h ++ [r])
    ∧ upsert (upsert h r) r = upsert h r
    ∧ (r.date = r2.date → (∀ x ∈ h, x.date ≠ r2.date) →
        (upsert (upsert h r) r2).filter (fun x => x.date = r2.date) = [r2]
        ∧ (upsert (upsert h r) r2).length = h.length + 1) := by
  refine ⟨?_, ?_, ?_, ?_⟩
  · intro last hl hdate
    simp [upsert, hl, hdate]
  · intro last hl hdate
    simp [upsert, hl, hdate]
  · rcases upsert_eq_concat h r with heq | heq <;>
      rw [heq, upsert_concat_of_date_eq _ r r rfl]
  · intro hdate hfresh
    have hfresh' : ∀ x ∈ h, x.date ≠ r.date := fun x hx => hdate ▸ hfresh x hx
    rw [upsert_of_date_not_mem h r hfresh', upsert_concat_of_date_eq h r r2 hdate]
    constructor
    · rw [List.filter_append]
      have h1 : h.filter (fun x => x.date = r2.date) = [] :=
        List.filter_eq_nil_iff.mpr (by simpa using hfresh)
      rw [h1]
      simp
    · simp

/-- Witness for C2: two same-day runs on a one-record prior history. -/
theorem upsert_idempotent_and_unique_witness :
    upsert (upsert [⟨"2024-01-01", 1⟩] ⟨"2024-01-02", 2⟩) ⟨"2024-01-02", 2⟩
      = upsert [⟨"2024-01-01", 1⟩] ⟨"2024-01-02", 2⟩
    ∧ (upsert (upsert [⟨"2024-01-01", 1⟩] ⟨"2024-01-02", 2⟩) ⟨"2024-01-02", 3⟩).filter
        (fun x => x.date = "2024-01-02") = [⟨"2024-01-02", 3⟩]
    ∧ (upsert (upsert [⟨"2024-01-01", 1⟩] ⟨"2024-01-02", 2⟩) ⟨"2024-01-02", 3⟩).length = 2 := by
  have hmain := upsert_idempotent_and_unique [⟨"2024-01-01", 1⟩]
    ⟨"2024-01-02", 2⟩ ⟨"2024-01-02", 3⟩
  have hlast := hmain.2.2.2 rfl (by simp)
  exact ⟨hmain.2.2.1, hlast.1, hlast.2⟩

end GoldPremium

namespace GoldPremium

/-- The `trend` field is determined by the `change` field exactly as the
source's two-branch conditional dictates. -/
lemma runAnalysis_trend_eq (hist : List PremiumRecord) (today : String) (p : ℚ) :
    (runAnalysis hist today p).trend
      = if (runAnalysis hist today p).change > 0 then Trend.up else Trend.down := rfl

/-- The `level` field is determined by the current premium and the `avg7`
field exactly as the source's conditional dictates. -/
lemma runAnalysis_level_eq (hist : List PremiumRecord) (today : String) (p : ℚ) :
    (runAnalysis hist today p).level
      = if p > (runAnalysis hist today p).avg7 then Level.overvalued else Level.undervalued := rfl

/-- The `prev` field is the premium of the most recent record of the
post-upsert history whose date differs from today, defaulting to `p`. -/
lemma runAnalysis_prev_eq (hist : List PremiumRecord) (today : String) (p : ℚ) :
    (runAnalysis hist today p).prev
      = (match ((upsert hist ⟨today, round2 p⟩).filter
            (fun x => x.date ≠ today)).getLast? with
        | some r => r.premium
        | none => p) := rfl

/-- The `change` field is the current premium minus the `prev` field. -/
lemma runAnalysis_change_eq (hist : List PremiumRecord) (today : String) (p : ℚ) :
    (runAnalysis hist today p).change = p - (runAnalysis hist today p).prev := rfl

/-- On an empty prior history the baseline falls back to the current
premium, so the change is zero. -/
lemma runAnalysis_nil_change (today : String) (p : ℚ) :
    (runAnalysis [] today p).change = 0 := by
  have hprev : (runAnalysis [] today p).prev = p := by
    rw [runAnalysis_prev_eq, filter_ne_upsert]
    rfl
  rw [runAnalysis_change_eq, hprev, sub_self]

end GoldPremium

namespace GoldPremium

/-- C7: the comparison baseline `prev` is the premium of the most recent
record whose date differs from the current run's date (the same-day upsert
never touches those records, so this may equivalently be read off the prior
history); when no such record exists (first-ever run), `prev` is the current
premium and `change = current - prev = 0`. -/
theorem previous_baseline (hist : List PremiumRecord) (today : String) (p : ℚ) :
    ((runAnalysis hist today p).prev
      = (match (hist.filter (fun x => x.date ≠ today)).getLast? with
        | some r => r.premium
        | none => p))
    ∧ (∀ r, (hist.filter (fun x => x.date ≠ today)).getLast? = some r →
        (runAnalysis hist today p).prev = r.premium)
    ∧ (runAnalysis hist today p).change = p - (runAnalysis hist today p).prev
    ∧ (hist.filter (fun x => x.date ≠ today) = [] →
        (runAnalysis hist today p).prev = p
        ∧ (runAnalysis hist today p).change = 0) := by
  have hbase : (runAnalysis hist today p).prev
      = (match (hist.filter (fun x => x.date ≠ today)).getLast? with
        | some r => r.premium
        | none => p) := by
    rw [runAnalysis_prev_eq, filter_ne_upsert]
  refine ⟨hbase, ?_, runAnalysis_change_eq hist today p, ?_⟩
  · intro r hr
    rw [hbase, hr]
  · intro hnil
    have hprev : (runAnalysis hist today p).prev = p := by
      rw [hbase, hnil]
      rfl
    exact ⟨hprev, by rw [runAnalysis_change_eq, hprev, sub_self]⟩

/-- Witness for C7: a first-ever run (empty prior history) and a run with a
genuine previous day. -/
theorem previous_baseline_witness :
    ((runAnalysis [] "2024-01-03" 5).prev = 5
      ∧ (runAnalysis [] "2024-01-03" 5).change = 0)
    ∧ (runAnalysis [⟨"2024-01-02", 2⟩] "2024-01-03" 5).prev = 2 := by
  constructor
  · exact (previous_baseline [] "2024-01-03" 5).2.2.2 rfl
  · exact (previous_baseline [⟨"2024-01-02", 2⟩] "2024-01-03" 5).2.1
      ⟨"2024-01-02", 2⟩ (by simp +decide)

end GoldPremium

namespace GoldPremium

/-- C6 counterexample: on a single-record history (first-ever run) the
change is 0, yet the code's two-branch conditional tags the trend as DOWN
(`"📉 하락세"`), not FLAT — there is no FLAT branch in the source. -/
theorem single_record_trend_counterexample :
    (runAnalysis [] "2024-01-01" 5).change = 0
    ∧ (runAnalysis [] "2024-01-01" 5).trend = Trend.down
    ∧ Trend.down ≠ Trend.flat := by
  refine ⟨?_, ?_, by decide⟩ <;>
    simp +decide [runAnalysis, upsert, takeLast, round2, round_eq]

/-- C6 (amended): the trend is UP when `change_vs_previous > 0` and DOWN
otherwise — non-positive change, including zero, classifies as DOWN, and no
input yields FLAT; on a single-record history the change is 0 and the trend
is therefore DOWN. -/
theorem trend_direction (hist : List PremiumRecord) (today : String) (p : ℚ) :
    ((runAnalysis hist today p).change > 0 → (runAnalysis hist today p).trend = Trend.up)
    ∧ ((runAnalysis hist today p).change ≤ 0 → (runAnalysis hist today p).trend = Trend.down)
    ∧ (runAnalysis hist today p).trend ≠ Trend.flat
    ∧ ((runAnalysis [] today p).change = 0 ∧ (runAnalysis [] today p).trend = Trend.down) := by
  refine ⟨?_, ?_, ?_, ?_, ?_⟩
  · intro hpos
    rw [runAnalysis_trend_eq, if_pos hpos]
  · intro hnonpos
    rw [runAnalysis_trend_eq, if_neg (not_lt.mpr hnonpos)]
  · rw [runAnalysis_trend_eq]
    by_cases hc : (runAnalysis hist today p).change > 0 <;> simp [hc]
  · exact runAnalysis_nil_change today p
  · rw [runAnalysis_trend_eq, runAnalysis_nil_change today p]
    norm_num

/-- Witness for C6 at a concrete falling run and a concrete first run. -/
theorem trend_direction_witness :
    (runAnalysis [⟨"2024-01-02", (7:ℚ)⟩] "2024-01-03" 5).change ≤ 0
    ∧ (runAnalysis [⟨"2024-01-02", (7:ℚ)⟩] "2024-01-03" 5).trend = Trend.down
    ∧ (runAnalysis [] "2024-01-03" 5).trend = Trend.down := by
  have hch : (runAnalysis [⟨"2024-01-02", (7:ℚ)⟩] "2024-01-03" 5).change = -2 := by
    simp +decide [runAnalysis, upsert, takeLast, round2, round_eq]
    norm_num
  have hle : (runAnalysis [⟨"2024-01-02", (7:ℚ)⟩] "2024-01-03" 5).change ≤ 0 := by
    rw [hch]; norm_num
  exact ⟨hle, (trend_direction [⟨"2024-01-02", (7:ℚ)⟩] "2024-01-03" 5).2.1 hle,
    (trend_direction [] "2024-01-03" 5).2.2.2.2⟩

/-- C8: the level is OVERVALUED exactly when the current premium strictly
exceeds the 7-sample window average; equality classifies as UNDERVALUED. -/
theorem level_classification (hist : List PremiumRecord) (today : String) (p : ℚ) :
    ((runAnalysis hist today p).level = Level.overvalued
        ↔ p > (runAnalysis hist today p).avg7)
    ∧ (p = (runAnalysis hist today p).avg7 →
        (runAnalysis hist today p).level = Level.undervalued) := by
  constructor
  · rw [runAnalysis_level_eq]
    by_cases hgt : p > (runAnalysis hist today p).avg7 <;> simp [hgt]
  · intro heq
    have hng : ¬ p > (runAnalysis hist today p).avg7 := by
      rw [← heq]
      exact lt_irrefl p
    rw [runAnalysis_level_eq, if_neg hng]

/-- Witness for C8 at a run whose premium equals the window average
(`p = 5` on an empty prior history: the window holds exactly today's
record, so the average equals the premium and the tie classifies as
UNDERVALUED). -/
theorem level_classification_witness :
    (5:ℚ) = (runAnalysis [] "2024-01-03" 5).avg7
    ∧ (runAnalysis [] "2024-01-03" 5).level = Level.undervalued := by
  have heq : (5:ℚ) = (runAnalysis [] "2024-01-03" 5).avg7 := by
    simp +decide [runAnalysis, upsert, takeLast, round2, round_eq]
    norm_num
  exact ⟨heq, (level_classification [] "2024-01-03" 5).2 heq⟩

end GoldPremium

namespace GoldPremium

/-- C9 counterexample: on the spec's example run (history 2024-01-01 → 1.0,
2024-01-02 → 2.0, current premium 3.0 on 2024-01-03) the code's window
average is 2.0, not the spec's 1.5: the average is taken over the history
AFTER the current day's record has been upserted, so it includes 3.0. -/
theorem window_average_example_counterexample :
    (runAnalysis [⟨"2024-01-01", 1⟩, ⟨"2024-01-02", 2⟩] "2024-01-03" 3).avg7 = 2
    ∧ (2:ℚ) ≠ 3/2 := by
  refine ⟨?_, by norm_num⟩
  simp +decide [runAnalysis, upsert, takeLast, round2, round_eq]
  norm_num

/-- C9 (amended): on the example run the window average is 2.0 (the mean of
the trailing records including the just-upserted current one); the remaining
example values hold as the spec states them: level OVERVALUED,
previous 2.0, change 1.0, trend UP. -/
theorem window_average_example :
    (runAnalysis [⟨"2024-01-01", 1⟩, ⟨"2024-01-02", 2⟩] "2024-01-03" 3).avg7 = 2
    ∧ (runAnalysis [⟨"2024-01-01", 1⟩, ⟨"2024-01-02", 2⟩] "2024-01-03" 3).level
        = Level.overvalued
    ∧ (runAnalysis [⟨"2024-01-01", 1⟩, ⟨"2024-01-02", 2⟩] "2024-01-03" 3).prev = 2
    ∧ (runAnalysis [⟨"2024-01-01", 1⟩, ⟨"2024-01-02", 2⟩] "2024-01-03" 3).change = 1
    ∧ (runAnalysis [⟨"2024-01-01", 1⟩, ⟨"2024-01-02", 2⟩] "2024-01-03" 3).trend
        = Trend.up := by
  simp +decide [runAnalysis, upsert, takeLast, round2, round_eq]
  norm_num

end GoldPremium

namespace GoldPremium

/-- C5 counterexample: a `daily_signal_generator.py` run whose NAV is
missing (so `calc_premium` yields `premium = None`: no fresh premium exists)
still produces a structured output — and the premium it reports is the
stale value read from the history store, tagged with the
`"--- (과거 기록)"` (past-record) trend marker.  This is a degraded output
mode substituting a fallback value, contradicting the claim. -/
theorem all_or_nothing_counterexample :
    (daily_calc_premium 900 none 1350 2400).premium = none
    ∧ (dailyMain (Except.ok (daily_calc_premium 900 none 1350 2400)) "2024-01-05"
        (StoreContent.valid [⟨"2024-01-04", 5⟩]))
      = (StoreContent.valid [⟨"2024-01-04", 5⟩],
         some ⟨5, 0, 5, Level.undervalued, Trend.pastRecord⟩) := by
  constructor
  · rfl
  · simp +decide [dailyMain, daily_calc_premium, load_history, takeLast]

/-- C5 (amended): `gold_premium_bot.py` is all-or-nothing — a failed run
produces no output and a successful run produces the complete analysis of
the freshly computed premium.  `daily_signal_generator.py` is not: when the
fetch succeeds but the NAV (hence the fresh premium) is missing, a nonempty
history yields a degraded output substituting the most recent stored
premium (with the past-record trend marker and no store write), and only an
empty history yields no output. -/
theorem all_or_nothing_by_variant (calcG : Except String Info)
    (fetchD : Except String DailyInfo) (today : String) (store : StoreContent) :
    (∀ e, calcG = Except.error e → goldMain calcG today store = (store, none))
    ∧ (∀ info, calcG = Except.ok info →
        (goldMain calcG today store).2
          = some (runAnalysis (load_history store) today info.premium)
        ∧ (runAnalysis (load_history store) today info.premium).premium = info.premium)
    ∧ (∀ info last, fetchD = Except.ok info → info.premium = none →
        (load_history store).getLast? = some last →
        (dailyMain fetchD today store).1 = store
        ∧ ∃ o : DailyOut, (dailyMain fetchD today store).2 = some o
            ∧ o.premium = last.premium ∧ o.change = 0 ∧ o.trend = Trend.pastRecord)
    ∧ (∀ info, fetchD = Except.ok info → info.premium = none →
        (load_history store).getLast? = none →
        dailyMain fetchD today store = (store, none)) := by
  refine ⟨?_, ?_, ?_, ?_⟩
  · intro e he
    subst he
    rfl
  · intro info hok
    subst hok
    exact ⟨rfl, rfl⟩
  · intro info last hok hnone hlast
    subst hok
    simp only [dailyMain, hnone, hlast]
    exact ⟨trivial, _, rfl, rfl, rfl, rfl⟩
  · intro info hok hnone hlast
    subst hok
    simp only [dailyMain, hnone, hlast]

/-- Witness for C5 (amended) at concrete runs: a failed gold run, a
successful gold run, and a NAV-missing daily run over a one-record store. -/
theorem all_or_nothing_by_variant_witness :
    goldMain (Except.error "boom") "2024-01-05" (StoreContent.valid [⟨"2024-01-04", 5⟩])
      = (StoreContent.valid [⟨"2024-01-04", 5⟩], none)
    ∧ (goldMain (Except.ok ⟨900, 880, 1350, 2400, 3⟩) "2024-01-05"
        (StoreContent.valid [⟨"2024-01-04", 5⟩])).2
      = some (runAnalysis [⟨"2024-01-04", 5⟩] "2024-01-05" 3)
    ∧ (dailyMain (Except.ok ⟨900, 900, 1350, 2400, none⟩) "2024-01-05"
        (StoreContent.valid [⟨"2024-01-04", 5⟩])).1
      = StoreContent.valid [⟨"2024-01-04", 5⟩] := by
  have h := all_or_nothing_by_variant (Except.error "boom")
    (Except.ok ⟨900, 900, 1350, 2400, none⟩) "2024-01-05"
    (StoreContent.valid [⟨"2024-01-04", 5⟩])
  have h2 := all_or_nothing_by_variant (Except.ok ⟨900, 880, 1350, 2400, 3⟩)
    (Except.ok ⟨900, 900, 1350, 2400, none⟩) "2024-01-05"
    (StoreContent.valid [⟨"2024-01-04", 5⟩])
  refine ⟨h.1 "boom" rfl, ?_, ?_⟩
  · exact (h2.2.1 ⟨900, 880, 1350, 2400, 3⟩ rfl).1
  · exact (h.2.2.1 ⟨900, 900, 1350, 2400, none⟩ ⟨"2024-01-04", 5⟩ rfl rfl rfl).1

end GoldPremium

namespace GoldPremium

/-- C4 counterexample: two store states with malformed content on which the
claim fails.  A file of bytes that do not decode as text makes `load()`
raise `UnicodeDecodeError` (only `json.JSONDecodeError` is caught), so it
neither "never raises" nor returns an empty sequence there; and a file
holding well-formed JSON that is not a record list (for example `{}`) is
returned as decoded, not as an empty sequence. -/
theorem load_never_raises_counterexample :
    FullStore.load_history FileState.undecodableBytes
      = Except.error PyError.unicodeDecodeError
    ∧ FullStore.load_history FileState.undecodableBytes
        ≠ Except.ok (JsonValue.records [])
    ∧ FullStore.load_history (FileState.decodes JsonValue.nonList)
        = Except.ok JsonValue.nonList
    ∧ (Except.ok JsonValue.nonList : Except PyError JsonValue)
        ≠ Except.ok (JsonValue.records []) := by
  refine ⟨rfl, by simp [FullStore.load_history], rfl, by simp⟩

/-- C4 (amended): `load_history` returns the empty sequence when no prior
state exists and when the stored content fails JSON decoding
(`json.JSONDecodeError`); but on content whose bytes do not decode as text
it raises `UnicodeDecodeError` instead of returning, and a well-formed JSON
document that is not a record list is returned unchanged rather than as an
empty sequence. -/
theorem load_history_error_paths (s : FileState) :
    (s = FileState.missing →
        FullStore.load_history s = Except.ok (JsonValue.records []))
    ∧ (s = FileState.invalidJson →
        FullStore.load_history s = Except.ok (JsonValue.records []))
    ∧ (s = FileState.undecodableBytes →
        FullStore.load_history s = Except.error PyError.unicodeDecodeError)
    ∧ (∀ v, s = FileState.decodes v → FullStore.load_history s = Except.ok v) := by
  refine ⟨?_, ?_, ?_, ?_⟩
  · intro h
    subst h
    rfl
  · intro h
    subst h
    rfl
  · intro h
    subst h
    rfl
  · intro v h
    subst h
    rfl

/-- Witness for C4 (amended) at one concrete file state per path. -/
theorem load_history_error_paths_witness :
    FullStore.load_history FileState.missing = Except.ok (JsonValue.records [])
    ∧ FullStore.load_history FileState.invalidJson = Except.ok (JsonValue.records [])
    ∧ FullStore.load_history FileState.undecodableBytes
        = Except.error PyError.unicodeDecodeError
    ∧ FullStore.load_history (FileState.decodes (JsonValue.records [⟨"2024-01-01", 1⟩]))
        = Except.ok (JsonValue.records [⟨"2024-01-01", 1⟩]) :=
  ⟨(load_history_error_paths FileState.missing).1 rfl,
   (load_history_error_paths FileState.invalidJson).2.1 rfl,
   (load_history_error_paths FileState.undecodableBytes).2.2.1 rfl,
   (load_history_error_paths (FileState.decodes (JsonValue.records [⟨"2024-01-01", 1⟩]))).2.2.2
     (JsonValue.records [⟨"2024-01-01", 1⟩]) rfl⟩

end GoldPremium
